import Mathlib

/-!
Verification of the zookeeper-cpp client facade (src/zk/client.hpp) and the
connection/session core it fronts, as described by the specification.

The only source file of the repository is the facade header.  The constexpr
flag operations on create_mode (operator|, operator&, operator~, is_set) are
real code and are embedded directly.  Every other operation (get, set, erase,
exists, get_children, create, commit, the watch dispatcher, the wire codec)
is declared in the header but implemented elsewhere; those are modelled from
the specification text and from the doc comments in the header, as noted on
each definition.
-/

namespace zk

/-- Error conditions the ensemble reports to a caller, from the error
taxonomy of the spec and the throws clauses of client.hpp. -/
inductive error_code where
  | no_node
  | node_exists
  | bad_version
  | not_empty
  | no_children_for_ephemerals
  | invalid_acl
  | invalid_arguments
deriving DecidableEq, Repr

/-!
create_mode.  In the source it is an enum class over unsigned int with
values normal = 0b0000, ephemeral = 0b0001, sequential = 0b0010,
container = 0b0100, together with constexpr bitwise operators.  We embed the
underlying unsigned integer directly as a natural number; bitwise or and
bitwise and of two values below 2^32 stay below 2^32, so no reduction
modulo 2^32 is needed for them, while operator~ complements against the
32-bit all-ones mask.
-/

namespace create_mode

def normal : Nat := 0
def ephemeral : Nat := 1
def sequential : Nat := 2
def container : Nat := 4

end create_mode

/-- Embeds constexpr operator|(create_mode, create_mode): bitwise or of the
underlying unsigned integers, with no validation of the combination. -/
def cm_or (a b : Nat) : Nat := a ||| b

/-- Embeds constexpr operator&(create_mode, create_mode). -/
def cm_and (a b : Nat) : Nat := a &&& b

/-- Embeds constexpr operator~(create_mode): complement within 32 bits. -/
def cm_not (a : Nat) : Nat := a ^^^ 4294967295

/-- Embeds constexpr is_set(self, flags): (self & flags) == flags. -/
def is_set (self flags : Nat) : Bool := cm_and self flags == flags

/-- Modelled from the spec: the design note of the spec asks that flag
combinations that are semantically invalid together, the example being
container with ephemeral, be rejected at construction time as an
invalid-configuration condition.  This definition follows the words of the
spec, to be compared against cm_or, which is embedded from the source. -/
def cm_or_validated (a b : Nat) : Except error_code Nat :=
  if is_set (a ||| b) create_mode.container && is_set (a ||| b) create_mode.ephemeral
  then .error .invalid_arguments
  else .ok (a ||| b)

/-!
The node database and the caller-facing operations.  The implementations of
get, get_children, exists, set, erase and commit are not part of the single
source file; the definitions below are modelled from the spec (sections 3, 6
and 8) and from the doc comments on the declarations in client.hpp.
-/

/-- Modelled from the spec: the version check argument of set and erase.
version.any skips the comparison; version.num v must equal the data version
of the node. -/
inductive version where
  | any
  | num (v : Nat)
deriving DecidableEq, Repr

/-- Modelled from the spec: whether a version check matches a data version. -/
def chkMatches : version → Nat → Bool
  | .any, _ => true
  | .num v, w => v == w

/-- Modelled from the spec: the stat snapshot returned with read and write
results.  Only the data-version field is referenced by the claims; the other
stat fields of the spec are not modelled. -/
structure stat where
  data_version : Nat
deriving DecidableEq, Repr

/-- Modelled from the spec: a node of the hierarchy, carrying its data bytes
and its data version. -/
structure znode where
  data : List Nat
  dataVersion : Nat
deriving DecidableEq, Repr

/-- Modelled from the spec: the node database, an association of absolute
paths to nodes. -/
abbrev zdb : Type := List (String × znode)

/-- Look a path up in the database. -/
def lookup : zdb → String → Option znode
  | [], _ => none
  | (q, n) :: rest, p => if q = p then some n else lookup rest p

/-- Replace the node stored at a path, leaving other entries alone. -/
def dbUpdate : zdb → String → znode → zdb
  | [], _, _ => []
  | (q, n) :: rest, p, m => if q = p then (q, m) :: rest else (q, n) :: dbUpdate rest p m

/-- Remove the entry of a path. -/
def dbRemove : zdb → String → zdb
  | [], _ => []
  | (q, n) :: rest, p => if q = p then rest else (q, n) :: dbRemove rest p

/-- Whether the database holds a child of the given path, that is an entry
whose path extends the given path by a slash. -/
def hasChildNodes (db : zdb) (p : String) : Bool :=
  db.any (fun kv => (p.data ++ ['/']).isPrefixOf kv.1.data)

/-- The names of the children of a path, stripped of the parent path, as the
get_children doc comment describes. -/
def childNames (db : zdb) (p : String) : List String :=
  db.filterMap (fun kv =>
    if (p.data ++ ['/']).isPrefixOf kv.1.data
       && !((kv.1.data.drop (p.data.length + 1)).contains '/')
    then some (String.mk (kv.1.data.drop (p.data.length + 1)))
    else none)

/-- Modelled from the spec: get returns the data and the stat of the node,
and fails with no_node when the path is absent. -/
def dbGet (db : zdb) (p : String) : Except error_code (List Nat × stat) :=
  match lookup db p with
  | none => .error .no_node
  | some n => .ok (n.data, ⟨n.dataVersion⟩)

/-- Modelled from the spec: get_children returns the child names and the
stat of the node, and fails with no_node when the path is absent. -/
def dbGetChildren (db : zdb) (p : String) : Except error_code (List String × stat) :=
  match lookup db p with
  | none => .error .no_node
  | some n => .ok (childNames db p, ⟨n.dataVersion⟩)

/-- Modelled from the spec: exists returns the stat of the node, or an empty
optional when the path is absent; absence is a normal negative result, not
an error. -/
def dbExists (db : zdb) (p : String) : Option stat :=
  (lookup db p).map (fun n => ⟨n.dataVersion⟩)

/-- Modelled from the spec: set stores new data in the node of the path when
the node exists and the version check matches, bumping the data version by
one and returning the new stat; it fails with no_node when the path is
absent and with bad_version when the check does not match. -/
def dbSet (db : zdb) (p : String) (d : List Nat) (chk : version) :
    Except error_code (zdb × stat) :=
  match lookup db p with
  | none => .error .no_node
  | some n =>
    if chkMatches chk n.dataVersion
    then .ok (dbUpdate db p ⟨d, n.dataVersion + 1⟩, ⟨n.dataVersion + 1⟩)
    else .error .bad_version

/-- Modelled from the spec: create inserts a fresh node with data version 0
when the path is absent and fails with node_exists otherwise.  The parent,
ephemeral-parent and acl checks of the spec are not exercised by any claim
and are not modelled. -/
def dbCreate (db : zdb) (p : String) (d : List Nat) : Except error_code zdb :=
  match lookup db p with
  | some _ => .error .node_exists
  | none => .ok ((p, ⟨d, 0⟩) :: db)

/-- Modelled from the spec: erase removes the node of the path when it
exists, the version check matches and the node has no children; the error
conditions are no_node, bad_version and not_empty. -/
def dbErase (db : zdb) (p : String) (chk : version) : Except error_code zdb :=
  match lookup db p with
  | none => .error .no_node
  | some n =>
    if chkMatches chk n.dataVersion
    then if hasChildNodes db p then .error .not_empty else .ok (dbRemove db p)
    else .error .bad_version

/-- Run erase as a state transition: on an error the database is returned
unchanged, so the error path performs no state change. -/
def eraseRun (db : zdb) (p : String) (chk : version) : zdb × Except error_code Unit :=
  match dbErase db p chk with
  | .ok db' => (db', .ok ())
  | .error e => (db, .error e)

/-!
The wire codec size cap (spec section 4.1): a data payload larger than one
mebibyte is rejected before any network write.  The client-level operations
below pair the operation result with the number of frames written to the
socket, so that "the socket is untouched" is visible in the model.
-/

/-- Modelled from the spec: the maximum allowable size of a data payload,
one mebibyte. -/
def maxDataSize : Nat := 1048576

/-- Modelled from the spec: the client-side set.  The codec rejects an
oversized payload with invalid_arguments before any network write; an
accepted payload is encoded into exactly one request frame and handled by
the ensemble. -/
def clientSet (db : zdb) (p : String) (d : List Nat) (chk : version) :
    Except error_code (zdb × stat) × Nat :=
  if maxDataSize < d.length
  then (.error .invalid_arguments, 0)
  else (dbSet db p d chk, 1)

/-- Modelled from the spec: the client-side create, with the same codec
size cap as clientSet. -/
def clientCreate (db : zdb) (p : String) (d : List Nat) :
    Except error_code zdb × Nat :=
  if maxDataSize < d.length
  then (.error .invalid_arguments, 0)
  else (dbCreate db p d, 1)

/-!
The watch dispatcher (spec section 4.5): registrations are indexed by path
and kind; on a matching event the dispatcher removes the registration before
delivering it, so each registration is delivered at most once.
-/

/-- Modelled from the spec: the kinds of watch a read operation can leave. -/
inductive watch_kind where
  | data_change
  | exists_change
  | child_change
deriving DecidableEq, Repr

/-- Modelled from the spec: the watch table, the set of live registrations
keyed by path and kind. -/
structure watch_state where
  registrations : List (String × watch_kind)
deriving DecidableEq, Repr

/-- Modelled from the spec: a read operation registers a watch for its path
and kind. -/
def register (s : watch_state) (p : String) (k : watch_kind) : watch_state :=
  ⟨(p, k) :: s.registrations⟩

/-- Modelled from the spec: an event on a path and kind fires the matching
registration when there is one, removing it from the table before delivery;
the boolean reports whether a delivery happened. -/
def fire (s : watch_state) (p : String) (k : watch_kind) : watch_state × Bool :=
  if (p, k) ∈ s.registrations
  then (⟨s.registrations.filter (fun r => decide (r ≠ (p, k)))⟩, true)
  else (s, false)

/-!
The multi-op transaction builder (spec section 4.7): a batch of
heterogeneous sub-operations applied all-or-nothing; on failure the caller
receives one aggregate failure naming the first failing index and its
reason, and no partial per-operation results.
-/

/-- Modelled from the spec: a sub-operation of a multi-op batch. -/
inductive multi_op_item where
  | createOp (path : String) (data : List Nat)
  | setOp (path : String) (data : List Nat) (chk : version)
  | eraseOp (path : String) (chk : version)
  | checkOp (path : String) (chk : version)
deriving DecidableEq, Repr

/-- Modelled from the spec: the aggregate failure of a multi-op commit,
naming the index of the first failing sub-operation and its reason.  By its
shape it carries no partial per-operation results. -/
structure multi_failure where
  index : Nat
  reason : error_code
deriving DecidableEq, Repr

/-- Apply one sub-operation to the database. -/
def applyOp (db : zdb) : multi_op_item → Except error_code zdb
  | .createOp p d => dbCreate db p d
  | .setOp p d chk =>
    match dbSet db p d chk with
    | .ok (db', _) => .ok db'
    | .error e => .error e
  | .eraseOp p chk => dbErase db p chk
  | .checkOp p chk =>
    match lookup db p with
    | none => .error .no_node
    | some n => if chkMatches chk n.dataVersion then .ok db else .error .bad_version

/-- Apply the sub-operations in order, stopping at the first failure and
reporting its index and reason. -/
def commitAux (db : zdb) (i : Nat) : List multi_op_item → Except multi_failure zdb
  | [] => .ok db
  | op :: rest =>
    match applyOp db op with
    | .ok db' => commitAux db' (i + 1) rest
    | .error e => .error ⟨i, e⟩

/-- Modelled from the spec: commit applies the batch all-or-nothing.  On
success the new database is installed; on any failure the original database
stands untouched and the caller receives only the aggregate failure. -/
def commit (db : zdb) (ops : List multi_op_item) : zdb × Except multi_failure Unit :=
  match commitAux db 0 ops with
  | .ok db' => (db', .ok ())
  | .error f => (db, .error f)

/-!
Sequential create (spec sections 6 and 8 and the create_mode doc comment):
the name of a sequential node is the given path plus the current sequential
counter rendered as exactly ten zero-padded decimal digits, and the counter
is incremented by one on each create.
-/

/-- Modelled from the spec: the ten decimal digits of the sequential
counter, most significant first, zero padded to width ten. -/
def pad10 (n : Nat) : List Nat :=
  [n / 1000000000 % 10, n / 100000000 % 10, n / 10000000 % 10, n / 1000000 % 10,
   n / 100000 % 10, n / 10000 % 10, n / 1000 % 10, n / 100 % 10, n / 10 % 10, n % 10]

/-- Read a most-significant-first digit list back as a number. -/
def decodeDigits (ds : List Nat) : Nat := ds.foldl (fun a d => 10 * a + d) 0

/-- Render a digit as its character. -/
def digitChar (d : Nat) : Char := Char.ofNat (48 + d)

/-- Modelled from the spec: the ten-character suffix appended to the path of
a sequential create. -/
def suffixChars (n : Nat) : List Char := (pad10 n).map digitChar

/-- Modelled from the spec: the sequential counter a parent keeps for
sequential creates. -/
structure seq_state where
  counter : Nat
deriving DecidableEq, Repr

/-- Modelled from the spec: a successful sequential create returns the given
path with the zero-padded counter appended and increments the counter by
one. -/
def createSequential (s : seq_state) (path : List Char) : seq_state × List Char :=
  (⟨s.counter + 1⟩, path ++ suffixChars s.counter)

/-!
Helper lemmas, shared by the claim theorems below.
-/

/-- Absorption of bitwise or by bitwise and: the union of two values always
has the second operand set. -/
theorem lor_and_self (a b : Nat) : (a ||| b) &&& b = b := by
  apply Nat.eq_of_testBit_eq
  intro i
  simp only [Nat.testBit_and, Nat.testBit_or]
  cases a.testBit i <;> cases b.testBit i <;> simp

/-- Updating the node at a present path makes lookup return the new node. -/
theorem lookup_dbUpdate_self {db : zdb} {p : String} {n m : znode}
    (h : lookup db p = some n) : lookup (dbUpdate db p m) p = some m := by
  induction db with
  | nil => simp [lookup] at h
  | cons kv rest ih =>
    obtain ⟨q, x⟩ := kv
    by_cases hq : q = p
    · simp [lookup, dbUpdate, hq]
    · simp only [lookup, dbUpdate, if_neg hq] at h ⊢
      exact ih h

/-- If the sub-operations up to index k of a batch succeed from a database
and turn it into an intermediate database on which the sub-operation at
index k fails, then running the whole batch fails, and the aggregate failure
carries the index of that sub-operation offset by the starting index,
together with its reason. -/
theorem commitAux_first_failure {e : error_code} :
    ∀ (ops : List multi_op_item) (db db2 : zdb) (k i : Nat) (hk : k < ops.length),
      commitAux db i (ops.take k) = .ok db2 →
      applyOp db2 (ops.get ⟨k, hk⟩) = .error e →
      commitAux db i ops = .error ⟨i + k, e⟩ := by
  intro ops
  induction ops with
  | nil =>
    intro db db2 k i hk
    exact absurd hk (by simp)
  | cons op rest ih =>
    intro db db2 k i hk hpre hfail
    match k with
    | 0 =>
      simp only [List.take_zero, commitAux] at hpre
      cases hpre
      simp only [List.get] at hfail
      simp [commitAux, hfail]
    | j + 1 =>
      simp only [List.take_succ_cons, commitAux] at hpre
      cases happ : applyOp db op with
      | error e2 => rw [happ] at hpre; cases hpre
      | ok dbm =>
        rw [happ] at hpre
        have hj : j < rest.length := by simpa using hk
        simp only [List.get] at hfail
        have := ih dbm db2 j (i + 1) hj hpre hfail
        simp only [commitAux, happ, this]
        have hidx : i + 1 + j = i + (j + 1) := by omega
        rw [hidx]

/-!
The claim theorems.
-/

/-- Claim C7: the create_mode flag set has numeric values normal = 0,
ephemeral = 1, sequential = 2, container = 4; for every pair of modes,
operator| is exactly their bitwise union over these values, and every
combination of the three non-zero flags is expressible by bitwise union,
each flag being recoverable from the combination through is_set. -/
theorem create_mode_flag_values_and_union :
    create_mode.normal = 0 ∧ create_mode.ephemeral = 1 ∧
    create_mode.sequential = 2 ∧ create_mode.container = 4 ∧
    (∀ a b : Nat, cm_or a b = a ||| b) ∧
    (∀ e s c : Bool,
      is_set (cm_or (cm_or (cond e create_mode.ephemeral create_mode.normal)
                           (cond s create_mode.sequential create_mode.normal))
                    (cond c create_mode.container create_mode.normal))
             create_mode.ephemeral = e ∧
      is_set (cm_or (cm_or (cond e create_mode.ephemeral create_mode.normal)
                           (cond s create_mode.sequential create_mode.normal))
                    (cond c create_mode.container create_mode.normal))
             create_mode.sequential = s ∧
      is_set (cm_or (cm_or (cond e create_mode.ephemeral create_mode.normal)
                           (cond s create_mode.sequential create_mode.normal))
                    (cond c create_mode.container create_mode.normal))
             create_mode.container = c) := by
  refine ⟨rfl, rfl, rfl, rfl, fun a b => rfl, ?_⟩
  decide

/-- Claim C10: is_set of any mode against the zero flag normal is always
true, so is_set can never positively detect that a mode is exactly normal;
and for all modes a and b, is_set of the union a | b against b is true. -/
theorem is_set_normal_always_true :
    (∀ m : Nat, is_set m create_mode.normal = true) ∧
    (∀ a b : Nat, is_set (cm_or a b) b = true) := by
  constructor
  · intro m
    simp [is_set, cm_and, create_mode.normal, Nat.and_zero]
  · intro a b
    simp [is_set, cm_and, cm_or, lor_and_self]

/-- Claim C8, counterexample: the combination container | ephemeral, which
the spec design note says should be rejected at construction time, is
constructed by operator| as the ordinary value 5 with both flags reported
set by is_set, while the validating constructor written from the words of
the spec rejects it; the code performs no construction-time validation. -/
theorem container_ephemeral_not_rejected :
    cm_or create_mode.container create_mode.ephemeral = 5 ∧
    is_set (cm_or create_mode.container create_mode.ephemeral) create_mode.container = true ∧
    is_set (cm_or create_mode.container create_mode.ephemeral) create_mode.ephemeral = true ∧
    cm_or_validated create_mode.container create_mode.ephemeral =
      .error .invalid_arguments :=
  ⟨by decide, by decide, by decide, rfl⟩

/-- Claim C8, amended: operator| performs a plain bitwise union with no
validation of the combination; semantically invalid combinations such as
container | ephemeral are silently accepted as ordinary values (here the
value 5, carrying both flags), not rejected as an invalid-configuration
condition. -/
theorem cm_or_silently_accepts_any_combination :
    (∀ a b : Nat, cm_or a b = a ||| b) ∧
    cm_or create_mode.container create_mode.ephemeral = 5 ∧
    is_set (cm_or create_mode.container create_mode.ephemeral) create_mode.container = true ∧
    is_set (cm_or create_mode.container create_mode.ephemeral) create_mode.ephemeral = true :=
  ⟨fun _ _ => rfl, by decide, by decide, by decide⟩

/-- Claim C9: on an absent path, get and get_children fail with no_node,
while exists succeeds and reports the absence as an empty optional stat, not
as an error. -/
theorem absent_path_read_behaviour (db : zdb) (p : String)
    (h : lookup db p = none) :
    dbGet db p = .error .no_node ∧
    dbGetChildren db p = .error .no_node ∧
    dbExists db p = none := by
  refine ⟨?_, ?_, ?_⟩ <;> simp [dbGet, dbGetChildren, dbExists, h]

/-- Claim C9, witness at the empty database and a concrete path. -/
theorem absent_path_read_behaviour_witness :
    dbGet [] "/a" = .error .no_node ∧
    dbGetChildren [] "/a" = .error .no_node ∧
    dbExists [] "/a" = none :=
  absent_path_read_behaviour [] "/a" rfl

/-- Claim C3: when set succeeds on a path holding a node, a subsequent get
of the path returns the new data together with a stat whose data version is
the data version the node had before the set plus one, and the stat the set
returned says the same. -/
theorem set_then_get (db db2 : zdb) (p : String) (d : List Nat) (chk : version)
    (n : znode) (st : stat)
    (hn : lookup db p = some n)
    (hset : dbSet db p d chk = .ok (db2, st)) :
    dbGet db2 p = .ok (d, ⟨n.dataVersion + 1⟩) ∧
    st.data_version = n.dataVersion + 1 := by
  simp only [dbSet, hn] at hset
  by_cases hc : chkMatches chk n.dataVersion = true
  · rw [if_pos hc] at hset
    have hinj := hset
    simp only [Except.ok.injEq, Prod.mk.injEq] at hinj
    obtain ⟨hdb, hst⟩ := hinj
    constructor
    · rw [← hdb]
      unfold dbGet
      rw [lookup_dbUpdate_self hn]
    · rw [← hst]
  · rw [if_neg hc] at hset
    cases hset

/-- Claim C3, witness: setting the node at a concrete path with a matching
version check, then reading it back. -/
theorem set_then_get_witness :
    dbGet [("/a", znode.mk [2] 4)] "/a" = .ok ([2], ⟨4⟩) ∧
    (stat.mk 4).data_version = 3 + 1 :=
  set_then_get [("/a", znode.mk [1] 3)] [("/a", znode.mk [2] 4)] "/a" [2]
    (version.num 3) (znode.mk [1] 3) (stat.mk 4) rfl rfl

/-- Claim C4: erasing an existing node with a version check that does not
match its data version fails with bad_version and leaves the database, hence
the data and version of the node, exactly as they were. -/
theorem erase_stale_version_no_change (db : zdb) (p : String) (chk : version)
    (n : znode)
    (hn : lookup db p = some n)
    (hv : chkMatches chk n.dataVersion = false) :
    eraseRun db p chk = (db, .error .bad_version) ∧
    dbGet db p = .ok (n.data, ⟨n.dataVersion⟩) := by
  have he : dbErase db p chk = .error .bad_version := by
    unfold dbErase
    rw [hn]
    simp [hv]
  constructor
  · simp [eraseRun, he]
  · simp [dbGet, hn]

/-- Claim C4, witness: a concrete node of version 2 erased with a stale
check of 0. -/
theorem erase_stale_version_no_change_witness :
    eraseRun [("/a", znode.mk [1] 2)] "/a" (version.num 0) =
      ([("/a", znode.mk [1] 2)], .error .bad_version) ∧
    dbGet [("/a", znode.mk [1] 2)] "/a" = .ok ([1], ⟨2⟩) :=
  erase_stale_version_no_change [("/a", znode.mk [1] 2)] "/a" (version.num 0)
    (znode.mk [1] 2) rfl rfl

/-- Claim C1: when the sub-operations before index k of a multi-op batch
succeed and the sub-operation at index k fails with some reason, the overall
result of commit is failed with one aggregate failure carrying exactly that
index and reason, the returned database is the original one — none of the
targeted nodes is modified — and by the result type no partial
per-operation results are exposed. -/
theorem commit_first_failure_atomic (db db2 : zdb) (ops : List multi_op_item)
    (k : Nat) (e : error_code) (hk : k < ops.length)
    (hpre : commitAux db 0 (ops.take k) = .ok db2)
    (hfail : applyOp db2 (ops.get ⟨k, hk⟩) = .error e) :
    commit db ops = (db, .error ⟨k, e⟩) := by
  have h := commitAux_first_failure ops db db2 k 0 hk hpre hfail
  rw [Nat.zero_add] at h
  simp [commit, h]

/-- Claim C1, witness: a two-operation batch whose second sub-operation
fails with bad_version; the commit fails with index 1 and reason
bad_version and the database is unchanged. -/
theorem commit_first_failure_atomic_witness :
    commit [("/a", znode.mk [1] 0)]
        [.checkOp "/a" (version.num 0), .setOp "/a" [2] (version.num 5)] =
      ([("/a", znode.mk [1] 0)], .error ⟨1, .bad_version⟩) :=
  commit_first_failure_atomic [("/a", znode.mk [1] 0)] [("/a", znode.mk [1] 0)]
    [.checkOp "/a" (version.num 0), .setOp "/a" [2] (version.num 5)]
    1 .bad_version (by decide) rfl rfl

/-- Claim C2: a watch that has fired is not delivered again by a second
event of the same kind on the same path, while re-registering it makes the
second event deliver again. -/
theorem watch_fires_at_most_once (s : watch_state) (p : String) (k : watch_kind)
    (h : (fire s p k).2 = true) :
    (fire (fire s p k).1 p k).2 = false ∧
    (fire (register (fire s p k).1 p k) p k).2 = true := by
  by_cases hm : (p, k) ∈ s.registrations
  · have h1 : (fire s p k).1 =
        ⟨s.registrations.filter (fun r => decide (r ≠ (p, k)))⟩ := by
      simp [fire, hm]
    have hnot : (p, k) ∉ s.registrations.filter (fun r => decide (r ≠ (p, k))) := by
      simp [List.mem_filter]
    constructor
    · rw [h1]
      simp [fire, hnot]
    · simp [fire, register]
  · exfalso
    simp [fire, hm] at h

/-- Claim C2, witness: one registration on a concrete path fires once and
does not fire again. -/
theorem watch_fires_at_most_once_witness :
    (fire ⟨[("/a", watch_kind.data_change)]⟩ "/a" watch_kind.data_change).2 = true ∧
    (fire (fire ⟨[("/a", watch_kind.data_change)]⟩ "/a" watch_kind.data_change).1
       "/a" watch_kind.data_change).2 = false :=
  ⟨by decide,
   (watch_fires_at_most_once ⟨[("/a", watch_kind.data_change)]⟩ "/a"
      watch_kind.data_change (by decide)).1⟩

/-- Claim C5: a create or set whose data payload exceeds one mebibyte fails
with invalid_arguments and writes zero frames to the socket: the oversized
payload is rejected before any network write. -/
theorem oversized_payload_rejected (db : zdb) (p : String) (d : List Nat)
    (chk : version) (h : 1048576 < d.length) :
    clientSet db p d chk = (.error .invalid_arguments, 0) ∧
    clientCreate db p d = (.error .invalid_arguments, 0) := by
  have h2 : maxDataSize < d.length := h
  constructor <;> simp [clientSet, clientCreate, h2]

/-- Claim C5, witness: a payload of 1048577 bytes is rejected with no
socket write. -/
theorem oversized_payload_rejected_witness :
    clientSet [] "/a" (List.replicate 1048577 0) version.any =
      (.error .invalid_arguments, 0) ∧
    clientCreate [] "/a" (List.replicate 1048577 0) =
      (.error .invalid_arguments, 0) :=
  oversized_payload_rejected [] "/a" (List.replicate 1048577 0) version.any
    (by simp only [List.length_replicate]; decide)

/-- Reading the padded digit list back gives the number, for numbers below
ten to the tenth. -/
theorem decodeDigits_pad10 (n : Nat) (h : n < 10000000000) :
    decodeDigits (pad10 n) = n := by
  simp only [decodeDigits, pad10, List.foldl]
  omega

/-- Claim C6: a successful sequential create returns the given path with a
suffix of exactly ten decimal digits, zero padded, the counter advances by
one, and the suffixes of successive creates are strictly increasing as
numbers. -/
theorem sequential_create_names (s : seq_state) (path : List Char)
    (h : s.counter + 1 < 10000000000) :
    (createSequential s path).2 = path ++ suffixChars s.counter ∧
    (suffixChars s.counter).length = 10 ∧
    (∀ d ∈ pad10 s.counter, d < 10) ∧
    (createSequential s path).1.counter = s.counter + 1 ∧
    decodeDigits (pad10 s.counter) <
      decodeDigits (pad10 (createSequential s path).1.counter) := by
  refine ⟨rfl, by simp [suffixChars, pad10], ?_, rfl, ?_⟩
  · intro d hd
    simp only [pad10, List.mem_cons, List.not_mem_nil, or_false] at hd
    rcases hd with h1 | h1 | h1 | h1 | h1 | h1 | h1 | h1 | h1 | h1 <;> omega
  · have h1 := decodeDigits_pad10 s.counter (by omega)
    have h2 := decodeDigits_pad10 (s.counter + 1) h
    show decodeDigits (pad10 s.counter) < decodeDigits (pad10 (s.counter + 1))
    omega

/-- Claim C6, witness: two successive sequential creates from counter 0
under a concrete path. -/
theorem sequential_create_names_witness :
    (createSequential ⟨0⟩ ['/', 'a']).2 = ['/', 'a'] ++ suffixChars 0 ∧
    (suffixChars 0).length = 10 ∧
    decodeDigits (pad10 0) < decodeDigits (pad10 (createSequential ⟨0⟩ ['/', 'a']).1.counter) := by
  have h := sequential_create_names ⟨0⟩ ['/', 'a'] (by decide)
  exact ⟨h.1, h.2.1, h.2.2.2.2⟩

end zk
